import Mathlib

/-!
Verification of the go-launchd socket-activation library.

The Go sources are shallowly embedded: the foreign (libc / launchd) side of
each call is an explicit environment, and every embedded function returns its
Go result together with the ordered trace of externally visible effects
(memory pinning, trampoline invocations, deallocation, socket-option queries,
descriptor closes).  Machine words are modelled as `Nat`, 32-bit descriptor
values as `Int` obtained by an explicit two's-complement reading of a raw
word modulo `2 ^ 32`.
-/

namespace GoLaunchd

/-- Decidable equality for `Except`, used to evaluate embedded results on
concrete inputs. -/
instance {ε α : Type} [DecidableEq ε] [DecidableEq α] :
    DecidableEq (Except ε α) := fun a b =>
  match a, b with
  | Except.ok x, Except.ok y =>
      if h : x = y then isTrue (congrArg Except.ok h)
      else isFalse fun hc => h (Except.ok.inj hc)
  | Except.error x, Except.error y =>
      if h : x = y then isTrue (congrArg Except.error h)
      else isFalse fun hc => h (Except.error.inj hc)
  | Except.ok _, Except.error _ => isFalse fun hc => Except.noConfusion hc
  | Except.error _, Except.ok _ => isFalse fun hc => Except.noConfusion hc

/-- Bytes of a Go string (each entry a byte value). -/
abbrev GoString := List Nat

/-- darwin errno value for `ENOENT` ("no such entry"). -/
def ENOENT : Nat := 2

/-- darwin errno value for `ESRCH` ("no such process" / not managed). -/
def ESRCH : Nat := 3

/-- darwin errno value for `EINVAL`. -/
def EINVAL : Nat := 22

/-- darwin errno value for `EALREADY`. -/
def EALREADY : Nat := 37

/-- darwin errno value for `ESOCKTNOSUPPORT`. -/
def ESOCKTNOSUPPORT : Nat := 44

/-- darwin errno value for `ENOTSUP`. -/
def ENOTSUP : Nat := 45

/-- darwin value of the `SOCK_STREAM` socket type. -/
def SOCK_STREAM : Nat := 1

/-- darwin value of the `SOCK_DGRAM` socket type. -/
def SOCK_DGRAM : Nat := 2

/-- Embedding of `syscall.BytePtrFromString` (used at the top of
`listenerFdsWithName`, src/activate_darwin.go:42): it fails with `EINVAL`
exactly when the string contains an embedded null byte, and otherwise yields
the null-terminated byte buffer handed to foreign code. -/
def bytePtrFromString (s : GoString) : Option GoString :=
  if 0 ∈ s then none else some (s ++ [0])

/-- The managed (Go-heap) addresses whose pointers are handed to foreign
code by `listenerFdsWithName`: the write-back word for the descriptor-array
address (`&fd`), the write-back word for the count (`&count`), and the
marshalled name buffer (`&libcName`). -/
inductive PinTarget where
  | fdWord
  | countWord
  | nameBuf
deriving DecidableEq, Repr

/-- Externally visible effects, in program order. -/
inductive Event where
  /-- `pinner.Pin(addr)` on a managed address. -/
  | pin (t : PinTarget)
  /-- `pinner.Unpin()` — releases every pin of the pinner at once. -/
  | unpinAll
  /-- Trampoline call to `launch_activate_socket`, recording which managed
  addresses are passed to foreign code. -/
  | callActivate (args : List PinTarget)
  /-- Trampoline call to `free` on the foreign address `addr`. -/
  | callFree (addr : Nat)
  /-- `syscall.GetsockoptInt(fd, SOL_SOCKET, SO_TYPE)`. -/
  | getsockopt (fd : Int)
  /-- `net.FileListener` on the file wrapping `fd`. -/
  | mkFileListener (fd : Int)
  /-- `net.FilePacketConn` on the file wrapping `fd`. -/
  | mkFilePacketConn (fd : Int)
  /-- Closing a file descriptor.  No code path of this library emits it. -/
  | closeFd (fd : Int)
deriving DecidableEq, Repr

/-- The foreign side of one `listenerFdsWithName` call: what the trampoline
and the launchd routine do when invoked. -/
structure LibcEnv where
  /-- Raw errno reported by the trampoline for the activate call (`e1`). -/
  activateErrno : Nat
  /-- Result word of `launch_activate_socket` (`r1`). -/
  activateR1 : Nat
  /-- Address written back into the `fd` word by the foreign routine. -/
  fdAddr : Nat
  /-- Count written back into the `count` word by the foreign routine. -/
  count : Nat
  /-- Foreign memory: the raw 32-bit word stored at a byte address. -/
  mem : Nat → Nat
  /-- Raw errno reported by the trampoline for the `free` call. -/
  freeErrno : Nat

/-- Two's-complement reading of a raw word as a 32-bit signed integer. -/
def asInt32 (w : Nat) : Int :=
  if w % 2 ^ 32 < 2 ^ 31 then ((w % 2 ^ 32 : Nat) : Int)
  else ((w % 2 ^ 32 : Nat) : Int) - 2 ^ 32

/-- Embedding of
`unsafe.Slice((*int32)(...), int(count))` followed by `slices.Clone`
(src/activate_darwin.go:116): the managed copy of `n` consecutive 32-bit
values read from foreign memory starting at byte address `base`. -/
def readFds (mem : Nat → Nat) (base : Nat) (n : Nat) : List Int :=
  (List.range n).map fun i => asInt32 (mem (base + 4 * i))

/-- The error taxonomy of the library (each constructor corresponds to one
`fmt.Errorf` site; `errno` below gives the wrapped raw code). -/
inductive LaunchdError where
  /-- `launchd: invalid socket name(%s): %w` wrapping `EINVAL`. -/
  | invalidName (name : GoString)
  /-- `launchd: error calling launch_activate_socket: %w` wrapping `e1`. -/
  | activateCallFailed (errno : Nat)
  /-- `launchd: no sockets found: %w` wrapping `ENOENT`. -/
  | noSocketsFound
  /-- `launchd: error calling free on *fd: %w` wrapping `e1`. -/
  | freeCallFailed (errno : Nat)
  /-- `launchd: no such socket(%s): %w` wrapping `ENOENT`. -/
  | notFound (name : GoString)
  /-- `launchd: socket/process is not managed by launchd: %w` wrapping `ESRCH`. -/
  | notManaged
  /-- `launchd: socket(%s) has been already activated: %w` wrapping `EALREADY`. -/
  | alreadyActivated (name : GoString)
  /-- `launchd: unknown error code : %w` wrapping the raw result word. -/
  | unknownCode (code : Nat)
  /-- `launchd: only supported on macOS: %w` wrapping `ENOTSUP`
  (src/unnamed/part_011, the `!darwin || ios` build). -/
  | unsupportedPlatform
deriving DecidableEq, Repr

/-- The raw errno wrapped by each error of the taxonomy. -/
def LaunchdError.errno : LaunchdError → Nat
  | .invalidName _ => EINVAL
  | .activateCallFailed e => e
  | .noSocketsFound => ENOENT
  | .freeCallFailed e => e
  | .notFound _ => ENOENT
  | .notManaged => ESRCH
  | .alreadyActivated _ => EALREADY
  | .unknownCode c => c
  | .unsupportedPlatform => ENOTSUP

/-- The managed addresses passed to `launch_activate_socket`, in argument
order (src/activate_darwin.go:94-99). -/
def activateArgs : List PinTarget :=
  [PinTarget.nameBuf, PinTarget.fdWord, PinTarget.countWord]

/-- The trampoline invocation of `launch_activate_socket`. -/
def callEvt : Event := Event.callActivate activateArgs

/-- The pin events in program order (src/activate_darwin.go:80-82:
`pinner.Pin(&fd); pinner.Pin(&count); pinner.Pin(&libcName)`). -/
def pinSeq : List Event :=
  [Event.pin PinTarget.fdWord, Event.pin PinTarget.countWord,
   Event.pin PinTarget.nameBuf]

/-- Embedding of `listenerFdsWithName` (src/activate_darwin.go:41-142).
Returns the Go result (descriptor list or error) and the effect trace.
The deferred `pinner.Unpin()` runs at every return after the pins, hence
`Event.unpinAll` closes every trace that pinned. -/
def listenerFdsWithName (env : LibcEnv) (name : GoString) :
    Except LaunchdError (List Int) × List Event :=
  match bytePtrFromString name with
  | none => (Except.error (LaunchdError.invalidName name), [])
  | some _ =>
    if env.activateErrno ≠ 0 then
      (Except.error (LaunchdError.activateCallFailed env.activateErrno),
       pinSeq ++ [callEvt, Event.unpinAll])
    else if env.activateR1 = 0 then
      if env.count = 0 then
        (Except.error LaunchdError.noSocketsFound,
         pinSeq ++ [callEvt, Event.unpinAll])
      else
        if env.freeErrno ≠ 0 then
          (Except.error (LaunchdError.freeCallFailed env.freeErrno),
           pinSeq ++ [callEvt, Event.callFree env.fdAddr, Event.unpinAll])
        else
          (Except.ok (readFds env.mem env.fdAddr env.count),
           pinSeq ++ [callEvt, Event.callFree env.fdAddr, Event.unpinAll])
    else if env.activateR1 = ENOENT then
      (Except.error (LaunchdError.notFound name),
       pinSeq ++ [callEvt, Event.unpinAll])
    else if env.activateR1 = ESRCH then
      (Except.error LaunchdError.notManaged,
       pinSeq ++ [callEvt, Event.unpinAll])
    else if env.activateR1 = EALREADY then
      (Except.error (LaunchdError.alreadyActivated name),
       pinSeq ++ [callEvt, Event.unpinAll])
    else
      (Except.error (LaunchdError.unknownCode env.activateR1),
       pinSeq ++ [callEvt, Event.unpinAll])

/-- Embedding of `os.NewFile(uintptr(fd), ...)`: a file handle wrapping one
raw descriptor.  The handle is only ever constructed, never closed, by this
library. -/
structure OsFile where
  fd : Int
deriving DecidableEq, Repr

/-- Embedding of the wrapping loop of `files` (src/activate_darwin.go:151-156
and src/activate.go:124-129): append `os.NewFile(fd, ...)` for every
descriptor with `fd != 0`, skipping zero-valued slots. -/
def wrapFiles : List Int → List OsFile
  | [] => []
  | fd :: rest =>
      if fd ≠ 0 then OsFile.mk fd :: wrapFiles rest else wrapFiles rest

/-- Embedding of the darwin `files` (src/activate_darwin.go:145-158): call
`listenerFdsWithName`, propagate its error, otherwise wrap every non-zero
descriptor. -/
def files (env : LibcEnv) (name : GoString) :
    Except LaunchdError (List OsFile) × List Event :=
  match listenerFdsWithName env name with
  | (Except.error e, tr) => (Except.error e, tr)
  | (Except.ok fdSlice, tr) => (Except.ok (wrapFiles fdSlice), tr)

/-- The per-descriptor outcomes of the foreign calls made by the adaptation
loops (`listeners` / `packetListeners`). -/
structure SockEnv where
  /-- `syscall.GetsockoptInt(fd, SOL_SOCKET, SO_TYPE)`: errno or socket
  type. -/
  getsockoptSoType : Int → Except Nat Nat
  /-- Whether `net.FileListener` succeeds on the file wrapping `fd`. -/
  fileListener : Int → Bool
  /-- Whether `net.FilePacketConn` succeeds on the file wrapping `fd`. -/
  filePacketConn : Int → Bool

/-- A `net.Listener` built by `net.FileListener`: an independent wrapper over
the same descriptor as its backing file. -/
structure NetListener where
  file : OsFile
deriving DecidableEq, Repr

/-- A `net.PacketConn` built by `net.FilePacketConn`. -/
structure NetPacketConn where
  file : OsFile
deriving DecidableEq, Repr

/-- The per-file failures joined with `errors.Join` by the adaptation
loops. -/
inductive AdaptErr where
  /-- `os.NewSyscallError("getsockopt", stypeErr)`. -/
  | getsockoptFailed (errno : Nat)
  /-- `fmt.Errorf("%s: %w", name, syscall.ESOCKTNOSUPPORT)`. -/
  | wrongSocketType (name : GoString)
  /-- The error of `net.FileListener`. -/
  | fileListenerFailed (fd : Int)
  /-- The error of `net.FilePacketConn`. -/
  | filePacketConnFailed (fd : Int)
deriving DecidableEq, Repr

/-- One iteration of the `listeners` loop body
(src/activate_darwin.go:168-186): query the socket type, reject on query
failure or non-stream type, otherwise attempt `net.FileListener`. -/
def listenerStep (senv : SockEnv) (name : GoString) (f : OsFile) :
    Except AdaptErr NetListener × List Event :=
  match senv.getsockoptSoType f.fd with
  | Except.error errno =>
      (Except.error (AdaptErr.getsockoptFailed errno),
       [Event.getsockopt f.fd])
  | Except.ok stype =>
      if stype ≠ SOCK_STREAM then
        (Except.error (AdaptErr.wrongSocketType name), [Event.getsockopt f.fd])
      else if senv.fileListener f.fd then
        (Except.ok (NetListener.mk f),
         [Event.getsockopt f.fd, Event.mkFileListener f.fd])
      else
        (Except.error (AdaptErr.fileListenerFailed f.fd),
         [Event.getsockopt f.fd, Event.mkFileListener f.fd])

/-- One iteration of the `packetListeners` loop body
(src/activate_darwin.go:202-220), requiring `SOCK_DGRAM` and using
`net.FilePacketConn`. -/
def packetStep (senv : SockEnv) (name : GoString) (f : OsFile) :
    Except AdaptErr NetPacketConn × List Event :=
  match senv.getsockoptSoType f.fd with
  | Except.error errno =>
      (Except.error (AdaptErr.getsockoptFailed errno),
       [Event.getsockopt f.fd])
  | Except.ok stype =>
      if stype ≠ SOCK_DGRAM then
        (Except.error (AdaptErr.wrongSocketType name), [Event.getsockopt f.fd])
      else if senv.filePacketConn f.fd then
        (Except.ok (NetPacketConn.mk f),
         [Event.getsockopt f.fd, Event.mkFilePacketConn f.fd])
      else
        (Except.error (AdaptErr.filePacketConnFailed f.fd),
         [Event.getsockopt f.fd, Event.mkFilePacketConn f.fd])

/-- The `for _, file := range files` loop shared by both adaptation
functions: each file contributes either one wrapped listener (appended in
order) or one failure joined into the error (in encounter order). -/
def adaptLoop {L : Type} (step : OsFile → Except AdaptErr L × List Event) :
    List OsFile → List L × List AdaptErr × List Event
  | [] => ([], [], [])
  | f :: rest =>
      let r := step f
      let acc := adaptLoop step rest
      match r.1 with
      | Except.ok l => (l :: acc.1, acc.2.1, r.2 ++ acc.2.2)
      | Except.error e => (acc.1, e :: acc.2.1, r.2 ++ acc.2.2)

/-- Embedding of the darwin `listeners` (src/activate_darwin.go:161-192).
The Go function returns the (clipped) listener slice together with a joined
error; here `Except.ok (ls, es)` stands for returning slice `ls` and the
join of the failures `es` (`nil` exactly when `es = []`). -/
def listeners (env : LibcEnv) (senv : SockEnv) (name : GoString) :
    Except LaunchdError (List NetListener × List AdaptErr) × List Event :=
  match files env name with
  | (Except.error e, tr) => (Except.error e, tr)
  | (Except.ok fs, tr) =>
      let (ls, es, tr2) := adaptLoop (listenerStep senv name) fs
      (Except.ok (ls, es), tr ++ tr2)

/-- Embedding of the darwin `packetListeners`
(src/activate_darwin.go:195-226). -/
def packetListeners (env : LibcEnv) (senv : SockEnv) (name : GoString) :
    Except LaunchdError (List NetPacketConn × List AdaptErr) × List Event :=
  match files env name with
  | (Except.error e, tr) => (Except.error e, tr)
  | (Except.ok fs, tr) =>
      let (ls, es, tr2) := adaptLoop (packetStep senv name) fs
      (Except.ok (ls, es), tr ++ tr2)

/-- Build platforms.  The darwin implementation is compiled under
`darwin && !ios`; every other platform (and the iOS variant of darwin) gets
the fixed stubs of src/unnamed/part_011 / src/activate_others.go. -/
inductive Platform where
  | macos
  | ios
  | linux
  | windows
  | freebsd
deriving DecidableEq, Repr

/-- Whether the socket-activation mechanism is compiled in: only on macOS
(`darwin && !ios`). -/
def Platform.supported : Platform → Bool
  | .macos => true
  | _ => false

/-- Stub `files` for `!darwin || ios` (src/unnamed/part_011:47-49): the
fixed unsupported-platform failure, no foreign call. -/
def filesOthers (_name : GoString) :
    Except LaunchdError (List OsFile) × List Event :=
  (Except.error LaunchdError.unsupportedPlatform, [])

/-- Stub `listeners` for `!darwin || ios` (src/unnamed/part_011:52-54). -/
def listenersOthers (_name : GoString) :
    Except LaunchdError (List NetListener × List AdaptErr) × List Event :=
  (Except.error LaunchdError.unsupportedPlatform, [])

/-- Stub `packetListeners` for `!darwin || ios`
(src/unnamed/part_011:57-59). -/
def packetListenersOthers (_name : GoString) :
    Except LaunchdError (List NetPacketConn × List AdaptErr) × List Event :=
  (Except.error LaunchdError.unsupportedPlatform, [])

/-- Public `Files` (src/unnamed/part_010:21-23): dispatches to the
per-platform `files` implementation selected by the build tags. -/
def Files (p : Platform) (env : LibcEnv) (name : GoString) :
    Except LaunchdError (List OsFile) × List Event :=
  if p.supported then files env name else filesOthers name

/-- Public `Listeners` (src/unnamed/part_010:43-45). -/
def Listeners (p : Platform) (env : LibcEnv) (senv : SockEnv)
    (name : GoString) :
    Except LaunchdError (List NetListener × List AdaptErr) × List Event :=
  if p.supported then listeners env senv name else listenersOthers name

/-- Public `PacketListeners` (src/unnamed/part_010:65-67). -/
def PacketListeners (p : Platform) (env : LibcEnv) (senv : SockEnv)
    (name : GoString) :
    Except LaunchdError (List NetPacketConn × List AdaptErr) × List Event :=
  if p.supported then packetListeners env senv name
  else packetListenersOthers name

/-- Deprecated wrapper `TCPListeners` (src/unnamed/part_010:70-72):
forwards to `Listeners`. -/
def TCPListeners (p : Platform) (env : LibcEnv) (senv : SockEnv)
    (name : GoString) :
    Except LaunchdError (List NetListener × List AdaptErr) × List Event :=
  Listeners p env senv name

/-- Deprecated wrapper `UDPListeners` (src/unnamed/part_010:75-77):
forwards to `PacketListeners`. -/
def UDPListeners (p : Platform) (env : LibcEnv) (senv : SockEnv)
    (name : GoString) :
    Except LaunchdError (List NetPacketConn × List AdaptErr) × List Event :=
  PacketListeners p env senv name

/-- A file survives the `listeners` loop exactly when its socket-type query
returns `SOCK_STREAM` and `net.FileListener` succeeds on it. -/
def streamOk (senv : SockEnv) (f : OsFile) : Bool :=
  match senv.getsockoptSoType f.fd with
  | Except.error _ => false
  | Except.ok stype =>
      if stype = SOCK_STREAM then senv.fileListener f.fd else false

/-- A file survives the `packetListeners` loop exactly when its socket-type
query returns `SOCK_DGRAM` and `net.FilePacketConn` succeeds on it. -/
def dgramOk (senv : SockEnv) (f : OsFile) : Bool :=
  match senv.getsockoptSoType f.fd with
  | Except.error _ => false
  | Except.ok stype =>
      if stype = SOCK_DGRAM then senv.filePacketConn f.fd else false

/-- A concrete foreign environment: the activate call succeeds, writing back
address `8` and count `2`; foreign memory holds descriptors `5` and `7`. -/
def envA : LibcEnv where
  activateErrno := 0
  activateR1 := 0
  fdAddr := 8
  count := 2
  mem := fun a => if a = 8 then 5 else 7
  freeErrno := 0

/-- A concrete adaptation environment: descriptor `5` is a stream socket,
every other descriptor a datagram socket; all wraps succeed. -/
def senvA : SockEnv where
  getsockoptSoType := fun fd =>
    if fd = 5 then Except.ok SOCK_STREAM else Except.ok SOCK_DGRAM
  fileListener := fun _ => true
  filePacketConn := fun _ => true

example :
    listenerFdsWithName envA [65] =
    (Except.ok [5, 7],
     pinSeq ++ [callEvt, Event.callFree 8, Event.unpinAll]) := by
  decide

example :
    (listeners envA senvA [65]).1 =
      Except.ok ([NetListener.mk (OsFile.mk 5)],
                 [AdaptErr.wrongSocketType [65]]) := by
  decide

example :
    (packetListeners envA senvA [65]).1 =
      Except.ok ([NetPacketConn.mk (OsFile.mk 7)],
                 [AdaptErr.wrongSocketType [65]]) := by
  decide

lemma wrapFiles_eq_filter_map (l : List Int) :
    wrapFiles l = (l.filter fun fd => fd != 0).map OsFile.mk := by
  induction l with
  | nil => rfl
  | cons fd rest ih =>
      by_cases h : fd = 0 <;> simp [wrapFiles, h, ih]

/-- Every trace of `listenerFdsWithName` that reaches the foreign call is the
three pins, the activate call, possibly the `free` call, and the final
unpin. -/
lemma trace_shape (env : LibcEnv) (name : GoString) (h : 0 ∉ name) :
    (listenerFdsWithName env name).2 = pinSeq ++ [callEvt, Event.unpinAll] ∨
    (listenerFdsWithName env name).2 =
      pinSeq ++ [callEvt, Event.callFree env.fdAddr, Event.unpinAll] := by
  simp only [listenerFdsWithName, bytePtrFromString, if_neg h]
  by_cases h1 : env.activateErrno ≠ 0
  · simp [h1]
  · by_cases h2 : env.activateR1 = 0
    · by_cases h3 : env.count = 0
      · simp [h1, h2, h3]
      · by_cases h4 : env.freeErrno ≠ 0 <;> simp [h1, h2, h3, h4]
    · by_cases h5 : env.activateR1 = 2
      · simp [h1, h2, h5, ENOENT]
      · by_cases h6 : env.activateR1 = 3
        · simp [h1, h2, h5, h6, ESRCH, ENOENT]
        · by_cases h7 : env.activateR1 = 37 <;>
            simp [h1, h2, h5, h6, h7, EALREADY, ESRCH, ENOENT]

/-- With an embedded null byte the request rejects immediately: error, empty
trace. -/
lemma lfwn_null (env : LibcEnv) (name : GoString) (h : 0 ∈ name) :
    listenerFdsWithName env name =
      (Except.error (LaunchdError.invalidName name), []) := by
  simp [listenerFdsWithName, bytePtrFromString, h]

/-- Unfolds one iteration of the adaptation loop when the step succeeds. -/
lemma adaptLoop_cons_ok {L : Type}
    (step : OsFile → Except AdaptErr L × List Event) (f : OsFile)
    (rest : List OsFile) (l : L) (h : (step f).1 = Except.ok l) :
    adaptLoop step (f :: rest) =
      (l :: (adaptLoop step rest).1, (adaptLoop step rest).2.1,
       (step f).2 ++ (adaptLoop step rest).2.2) := by
  simp [adaptLoop, h]

/-- Unfolds one iteration of the adaptation loop when the step fails. -/
lemma adaptLoop_cons_err {L : Type}
    (step : OsFile → Except AdaptErr L × List Event) (f : OsFile)
    (rest : List OsFile) (e : AdaptErr) (h : (step f).1 = Except.error e) :
    adaptLoop step (f :: rest) =
      ((adaptLoop step rest).1, e :: (adaptLoop step rest).2.1,
       (step f).2 ++ (adaptLoop step rest).2.2) := by
  simp [adaptLoop, h]

/-- Each file contributes exactly one outcome: listener count plus joined
failure count equals the number of input files. -/
lemma adaptLoop_length {L : Type}
    (step : OsFile → Except AdaptErr L × List Event) (fs : List OsFile) :
    (adaptLoop step fs).1.length + (adaptLoop step fs).2.1.length =
      fs.length := by
  induction fs with
  | nil => rfl
  | cons f rest ih =>
      cases hs : (step f).1 with
      | error e =>
          rw [adaptLoop_cons_err step f rest e hs]
          simp only [List.length_cons]
          omega
      | ok l =>
          rw [adaptLoop_cons_ok step f rest l hs]
          simp only [List.length_cons]
          omega

/-- The adaptation loop's trace is the concatenation of the per-file step
traces, in file order. -/
lemma adaptLoop_trace {L : Type}
    (step : OsFile → Except AdaptErr L × List Event) (fs : List OsFile) :
    (adaptLoop step fs).2.2 = (fs.map fun f => (step f).2).flatten := by
  induction fs with
  | nil => rfl
  | cons f rest ih =>
      cases hs : (step f).1 with
      | error e => rw [adaptLoop_cons_err step f rest e hs]; simp [ih]
      | ok l => rw [adaptLoop_cons_ok step f rest l hs]; simp [ih]

/-- The listener list built by the adaptation loop is exactly the surviving
files, wrapped in order. -/
lemma adaptLoop_listener_ok (senv : SockEnv) (name : GoString)
    (fs : List OsFile) :
    (adaptLoop (listenerStep senv name) fs).1 =
      (fs.filter (streamOk senv)).map NetListener.mk := by
  induction fs with
  | nil => rfl
  | cons f rest ih =>
      cases hg : senv.getsockoptSoType f.fd with
      | error e =>
          rw [adaptLoop_cons_err _ f rest (AdaptErr.getsockoptFailed e)
              (by simp [listenerStep, hg])]
          have hn : streamOk senv f = false := by simp [streamOk, hg]
          simp [hn, ih]
      | ok st =>
          by_cases hs : st = SOCK_STREAM
          · by_cases hl : senv.fileListener f.fd
            · rw [adaptLoop_cons_ok _ f rest (NetListener.mk f)
                  (by simp [listenerStep, hg, hs, hl])]
              have hy : streamOk senv f = true := by
                simp [streamOk, hg, hs, hl]
              simp [hy, ih]
            · rw [adaptLoop_cons_err _ f rest
                  (AdaptErr.fileListenerFailed f.fd)
                  (by simp [listenerStep, hg, hs, hl])]
              have hn : streamOk senv f = false := by
                simp [streamOk, hg, hs, hl]
              simp [hn, ih]
          · rw [adaptLoop_cons_err _ f rest (AdaptErr.wrongSocketType name)
                (by simp [listenerStep, hg, hs])]
            have hn : streamOk senv f = false := by simp [streamOk, hg, hs]
            simp [hn, ih]

lemma adaptLoop_packet_ok (senv : SockEnv) (name : GoString)
    (fs : List OsFile) :
    (adaptLoop (packetStep senv name) fs).1 =
      (fs.filter (dgramOk senv)).map NetPacketConn.mk := by
  induction fs with
  | nil => rfl
  | cons f rest ih =>
      cases hg : senv.getsockoptSoType f.fd with
      | error e =>
          rw [adaptLoop_cons_err _ f rest (AdaptErr.getsockoptFailed e)
              (by simp [packetStep, hg])]
          have hn : dgramOk senv f = false := by simp [dgramOk, hg]
          simp [hn, ih]
      | ok st =>
          by_cases hs : st = SOCK_DGRAM
          · by_cases hl : senv.filePacketConn f.fd
            · rw [adaptLoop_cons_ok _ f rest (NetPacketConn.mk f)
                  (by simp [packetStep, hg, hs, hl])]
              have hy : dgramOk senv f = true := by
                simp [dgramOk, hg, hs, hl]
              simp [hy, ih]
            · rw [adaptLoop_cons_err _ f rest
                  (AdaptErr.filePacketConnFailed f.fd)
                  (by simp [packetStep, hg, hs, hl])]
              have hn : dgramOk senv f = false := by
                simp [dgramOk, hg, hs, hl]
              simp [hn, ih]
          · rw [adaptLoop_cons_err _ f rest (AdaptErr.wrongSocketType name)
                (by simp [packetStep, hg, hs])]
            have hn : dgramOk senv f = false := by simp [dgramOk, hg, hs]
            simp [hn, ih]

/-- The joined failure list is empty exactly when every file survived the
`listeners` loop. -/
lemma adaptLoop_listener_errs_nil (senv : SockEnv) (name : GoString)
    (fs : List OsFile) :
    (adaptLoop (listenerStep senv name) fs).2.1 = [] ↔
      ∀ f ∈ fs, streamOk senv f = true := by
  have hlen := adaptLoop_length (listenerStep senv name) fs
  rw [adaptLoop_listener_ok senv name fs] at hlen
  constructor
  · intro he f hf
    rw [he] at hlen
    simp only [List.length_map, List.length_nil, Nat.add_zero] at hlen
    exact List.filter_length_eq_length.mp hlen f hf
  · intro hall
    have hfl : (fs.filter (streamOk senv)).length = fs.length :=
      List.filter_length_eq_length.mpr hall
    rw [List.length_map] at hlen
    have h0 : (adaptLoop (listenerStep senv name) fs).2.1.length = 0 := by
      omega
    exact List.length_eq_zero.mp h0

/-- Every event of one `listeners` iteration is the socket-type query or the
`net.FileListener` attempt on that file. -/
lemma listenerStep_trace (senv : SockEnv) (name : GoString) (f : OsFile) :
    ∀ e ∈ (listenerStep senv name f).2,
      e = Event.getsockopt f.fd ∨ e = Event.mkFileListener f.fd := by
  intro e he
  cases hg : senv.getsockoptSoType f.fd with
  | error er => simp [listenerStep, hg] at he; simp [he]
  | ok st =>
      by_cases hs : st = SOCK_STREAM
      · by_cases hl : senv.fileListener f.fd <;>
          · simp [listenerStep, hg, hs, hl] at he
            rcases he with he | he <;> simp [he]
      · simp [listenerStep, hg, hs] at he; simp [he]

/-- Every event of one `packetListeners` iteration is the socket-type query
or the `net.FilePacketConn` attempt on that file. -/
lemma packetStep_trace (senv : SockEnv) (name : GoString) (f : OsFile) :
    ∀ e ∈ (packetStep senv name f).2,
      e = Event.getsockopt f.fd ∨ e = Event.mkFilePacketConn f.fd := by
  intro e he
  cases hg : senv.getsockoptSoType f.fd with
  | error er => simp [packetStep, hg] at he; simp [he]
  | ok st =>
      by_cases hs : st = SOCK_DGRAM
      · by_cases hl : senv.filePacketConn f.fd <;>
          · simp [packetStep, hg, hs, hl] at he
            rcases he with he | he <;> simp [he]
      · simp [packetStep, hg, hs] at he; simp [he]

/-- No close event ever appears in the trace of the activation request. -/
lemma lfwn_no_close (env : LibcEnv) (name : GoString) (fd : Int) :
    Event.closeFd fd ∉ (listenerFdsWithName env name).2 := by
  by_cases h : 0 ∈ name
  · rw [lfwn_null env name h]
    simp
  · rcases trace_shape env name h with hs | hs <;>
      · rw [hs]
        simp [pinSeq, callEvt]

/-- When the socket-type query reports `SOCK_DGRAM` on every file, the
`listeners` loop rejects each one with a type-mismatch failure. -/
lemma adaptLoop_listener_all_dgram (senv : SockEnv) (name : GoString)
    (fs : List OsFile)
    (h : ∀ f ∈ fs, senv.getsockoptSoType f.fd = Except.ok SOCK_DGRAM) :
    (adaptLoop (listenerStep senv name) fs).2.1 =
      fs.map fun _ => AdaptErr.wrongSocketType name := by
  induction fs with
  | nil => rfl
  | cons f rest ih =>
      have hg := h f (List.mem_cons_self f rest)
      rw [adaptLoop_cons_err _ f rest (AdaptErr.wrongSocketType name)
          (by simp [listenerStep, hg, SOCK_DGRAM, SOCK_STREAM])]
      simp [ih fun g hg2 => h g (List.mem_cons_of_mem f hg2)]

example :
    listenerFdsWithName
      { activateErrno := 0, activateR1 := 3, fdAddr := 0, count := 0
        mem := fun _ => 0, freeErrno := 0 } [65] =
    (Except.error LaunchdError.notManaged,
     pinSeq ++ [callEvt, Event.unpinAll]) := by
  decide

example :
    listenerFdsWithName
      { activateErrno := 0, activateR1 := 0, fdAddr := 0, count := 0
        mem := fun _ => 0, freeErrno := 0 } [65, 0, 66] =
    (Except.error (LaunchdError.invalidName [65, 0, 66]), []) := by
  decide

/-- A concrete not-found environment: the trampoline reports no raw error
and the routine's result word is `ENOENT`. -/
def envNF : LibcEnv where
  activateErrno := 0
  activateR1 := 2
  fdAddr := 0
  count := 0
  mem := fun _ => 0
  freeErrno := 0

/-- Claim C1: when the trampoline reports no raw error and the foreign
routine's result word is `0`, a written-back count of `0` yields the
no-sockets-found failure; otherwise the call returns the managed copy of
exactly `count` 32-bit descriptor values read starting at the written-back
array address, invokes the deallocation routine on that address exactly
once, and performs exactly one activate call — so exactly one external
buffer is created and freed, and (the result being a pure copy) the foreign
buffer is never retained past the call. -/
theorem C1_success_copies_count_fds_and_frees_once (env : LibcEnv)
    (name : GoString) (h0 : 0 ∉ name) (h1 : env.activateErrno = 0)
    (h2 : env.activateR1 = 0) (h3 : env.freeErrno = 0) :
    (env.count = 0 →
      listenerFdsWithName env name =
        (Except.error LaunchdError.noSocketsFound,
         pinSeq ++ [callEvt, Event.unpinAll])) ∧
    (env.count ≠ 0 →
      listenerFdsWithName env name =
        (Except.ok (readFds env.mem env.fdAddr env.count),
         pinSeq ++ [callEvt, Event.callFree env.fdAddr, Event.unpinAll]) ∧
      (readFds env.mem env.fdAddr env.count).length = env.count ∧
      (listenerFdsWithName env name).2.count (Event.callFree env.fdAddr)
        = 1 ∧
      (listenerFdsWithName env name).2.count callEvt = 1) := by
  have hbp : bytePtrFromString name = some (name ++ [0]) := by
    simp [bytePtrFromString, h0]
  constructor
  · intro hc
    simp [listenerFdsWithName, hbp, h1, h2, hc]
  · intro hc
    have heq : listenerFdsWithName env name =
        (Except.ok (readFds env.mem env.fdAddr env.count),
         pinSeq ++ [callEvt, Event.callFree env.fdAddr, Event.unpinAll]) := by
      simp [listenerFdsWithName, hbp, h1, h2, h3, hc]
    refine ⟨heq, by simp [readFds], ?_, ?_⟩ <;>
      · rw [heq]
        simp [pinSeq, callEvt, List.count_append, List.count_cons]

/-- Witness for C1 on the concrete environment `envA`. -/
theorem C1_witness :
    (0 ∉ ([65] : GoString)) ∧ envA.activateErrno = 0 ∧
    envA.activateR1 = 0 ∧ envA.freeErrno = 0 ∧ envA.count ≠ 0 ∧
    listenerFdsWithName envA [65] =
      (Except.ok [5, 7],
       pinSeq ++ [callEvt, Event.callFree 8, Event.unpinAll]) := by
  refine ⟨by decide, rfl, rfl, rfl, by decide, ?_⟩
  have h := (C1_success_copies_count_fds_and_frees_once envA [65]
    (by decide) rfl rfl rfl).2 (by decide)
  rw [h.1]
  decide

/-- Claim C2: when the trampoline reports no raw error and the result word
`r` is nonzero, `r = ENOENT` yields the not-found failure naming the socket,
`r = ESRCH` the not-managed failure, `r = EALREADY` the already-activated
failure, and any other `r` the generic failure wrapping the raw code; no
descriptors are returned in any of these cases. -/
theorem C2_error_codes_map_to_taxonomy (env : LibcEnv) (name : GoString)
    (h0 : 0 ∉ name) (h1 : env.activateErrno = 0)
    (h2 : env.activateR1 ≠ 0) :
    (env.activateR1 = ENOENT →
      (listenerFdsWithName env name).1 =
        Except.error (LaunchdError.notFound name) ∧
      (LaunchdError.notFound name).errno = ENOENT) ∧
    (env.activateR1 = ESRCH →
      (listenerFdsWithName env name).1 =
        Except.error LaunchdError.notManaged ∧
      LaunchdError.notManaged.errno = ESRCH) ∧
    (env.activateR1 = EALREADY →
      (listenerFdsWithName env name).1 =
        Except.error (LaunchdError.alreadyActivated name) ∧
      (LaunchdError.alreadyActivated name).errno = EALREADY) ∧
    (env.activateR1 ≠ ENOENT → env.activateR1 ≠ ESRCH →
      env.activateR1 ≠ EALREADY →
      (listenerFdsWithName env name).1 =
        Except.error (LaunchdError.unknownCode env.activateR1) ∧
      (LaunchdError.unknownCode env.activateR1).errno = env.activateR1) ∧
    ∀ fds, (listenerFdsWithName env name).1 ≠ Except.ok fds := by
  have hbp : bytePtrFromString name = some (name ++ [0]) := by
    simp [bytePtrFromString, h0]
  refine ⟨?_, ?_, ?_, ?_, ?_⟩
  · intro hr
    constructor
    · simp [listenerFdsWithName, hbp, h1, hr, ENOENT]
    · simp [LaunchdError.errno]
  · intro hr
    constructor
    · simp [listenerFdsWithName, hbp, h1, hr, ENOENT, ESRCH]
    · simp [LaunchdError.errno]
  · intro hr
    constructor
    · simp [listenerFdsWithName, hbp, h1, hr, ENOENT, ESRCH, EALREADY]
    · simp [LaunchdError.errno]
  · intro hn1 hn2 hn3
    have hn1n : env.activateR1 ≠ 2 := by simpa [ENOENT] using hn1
    have hn2n : env.activateR1 ≠ 3 := by simpa [ESRCH] using hn2
    have hn3n : env.activateR1 ≠ 37 := by simpa [EALREADY] using hn3
    constructor
    · simp [listenerFdsWithName, hbp, h1, h2, ENOENT, ESRCH, EALREADY,
            hn1n, hn2n, hn3n]
    · simp [LaunchdError.errno]
  · intro fds
    simp only [listenerFdsWithName, hbp, h1]
    by_cases hn1 : env.activateR1 = 2
    · simp [h2, hn1, ENOENT]
    · by_cases hn2 : env.activateR1 = 3
      · simp [h2, hn2, ENOENT, ESRCH]
      · by_cases hn3 : env.activateR1 = 37 <;>
          simp [h2, hn1, hn2, hn3, ENOENT, ESRCH, EALREADY]

/-- Witness for C2 on the concrete not-found environment `envNF`. -/
theorem C2_witness :
    (0 ∉ ([66] : GoString)) ∧ envNF.activateErrno = 0 ∧
    envNF.activateR1 ≠ 0 ∧ envNF.activateR1 = ENOENT ∧
    (listenerFdsWithName envNF [66]).1 =
      Except.error (LaunchdError.notFound [66]) := by
  refine ⟨by decide, rfl, by decide, rfl, ?_⟩
  exact ((C2_error_codes_map_to_taxonomy envNF [66] (by decide) rfl
    (by decide)).1 rfl).1

/-- Claim C3: a name containing an embedded null byte is rejected
immediately with the invalid-name (`EINVAL`) failure, with an empty effect
trace (no foreign call), by the activation request and hence by `Files`,
`Listeners` and `PacketListeners` on the supported platform; no descriptors
are returned. -/
theorem C3_invalid_name_rejected_without_foreign_call (env : LibcEnv)
    (senv : SockEnv) (name : GoString) (h : 0 ∈ name) :
    listenerFdsWithName env name =
      (Except.error (LaunchdError.invalidName name), []) ∧
    Files Platform.macos env name =
      (Except.error (LaunchdError.invalidName name), []) ∧
    Listeners Platform.macos env senv name =
      (Except.error (LaunchdError.invalidName name), []) ∧
    PacketListeners Platform.macos env senv name =
      (Except.error (LaunchdError.invalidName name), []) ∧
    (LaunchdError.invalidName name).errno = EINVAL := by
  have hlf := lfwn_null env name h
  refine ⟨hlf, ?_, ?_, ?_, rfl⟩ <;>
    simp [Files, Listeners, PacketListeners, files, listeners,
          packetListeners, Platform.supported, hlf]

/-- Witness for C3 on a concrete name with an embedded null byte. -/
theorem C3_witness :
    (0 ∈ ([65, 0, 66] : GoString)) ∧
    listenerFdsWithName envA [65, 0, 66] =
      (Except.error (LaunchdError.invalidName [65, 0, 66]), []) := by
  refine ⟨by decide, ?_⟩
  exact (C3_invalid_name_rejected_without_foreign_call envA senvA
    [65, 0, 66] (by decide)).1

/-- Claim C10: the activation request rejects a name without performing the
foreign call exactly when the name contains an embedded null byte; the empty
string passes validation and reaches the foreign call — non-emptiness is
never checked. -/
theorem C10_validation_rejects_iff_embedded_null (env : LibcEnv)
    (name : GoString) :
    (callEvt ∈ (listenerFdsWithName env name).2 ↔ 0 ∉ name) ∧
    (0 ∈ name →
      listenerFdsWithName env name =
        (Except.error (LaunchdError.invalidName name), [])) ∧
    callEvt ∈ (listenerFdsWithName env ([] : GoString)).2 := by
  have hmem : ∀ nm : GoString, 0 ∉ nm →
      callEvt ∈ (listenerFdsWithName env nm).2 := by
    intro nm hnm
    rcases trace_shape env nm hnm with hs | hs <;>
      · rw [hs]
        simp [pinSeq]
  refine ⟨⟨?_, fun hn => hmem name hn⟩, fun hn => lfwn_null env name hn,
    hmem [] (by simp)⟩
  intro hc hn
  rw [lfwn_null env name hn] at hc
  simp at hc

/-- Witness for C10: the empty name passes validation and reaches the
foreign call in a concrete environment. -/
theorem C10_witness :
    (0 ∉ ([] : GoString)) ∧
    callEvt ∈ (listenerFdsWithName envA ([] : GoString)).2 :=
  ⟨by decide, (C10_validation_rejects_iff_embedded_null envA []).2.2⟩

/-- The trace of `files` is exactly the trace of the activation request: the
wrapping loop performs no external effect. -/
lemma files_trace (env : LibcEnv) (name : GoString) :
    (files env name).2 = (listenerFdsWithName env name).2 := by
  rcases h : listenerFdsWithName env name with ⟨r, tr⟩
  cases r <;> simp [files, h]

/-- No close event appears in an adaptation loop whose step never closes. -/
lemma adaptLoop_no_close {L : Type}
    (step : OsFile → Except AdaptErr L × List Event) (fs : List OsFile)
    (fd : Int) (hstep : ∀ f, ∀ e ∈ (step f).2, e ≠ Event.closeFd fd) :
    Event.closeFd fd ∉ (adaptLoop step fs).2.2 := by
  rw [adaptLoop_trace]
  intro hmem
  rcases List.mem_flatten.mp hmem with ⟨l, hl, hel⟩
  rcases List.mem_map.mp hl with ⟨f, hf, rfl⟩
  exact hstep f _ hel rfl

/-- A concrete environment whose foreign memory holds the descriptors `5`
and `0` — the zero slot is the defensive sentinel `files` must drop. -/
def envZ : LibcEnv where
  activateErrno := 0
  activateR1 := 0
  fdAddr := 0
  count := 2
  mem := fun a => if a = 0 then 5 else 0
  freeErrno := 0

/-- Claim C5: for every successful activation, `files` (and the public
`Files` on the supported platform) returns exactly one file handle per
non-zero descriptor value, in order, dropping zero-valued slots rather than
wrapping them. -/
theorem C5_files_wraps_each_nonzero_descriptor (env : LibcEnv)
    (name : GoString) (fdSlice : List Int) (tr : List Event)
    (h : listenerFdsWithName env name = (Except.ok fdSlice, tr)) :
    files env name = (Except.ok (wrapFiles fdSlice), tr) ∧
    Files Platform.macos env name = files env name ∧
    wrapFiles fdSlice = (fdSlice.filter fun fd => fd != 0).map OsFile.mk ∧
    (wrapFiles fdSlice).length =
      (fdSlice.filter fun fd => fd != 0).length := by
  refine ⟨by simp [files, h], rfl, wrapFiles_eq_filter_map fdSlice, ?_⟩
  rw [wrapFiles_eq_filter_map]
  simp

/-- Witness for C5: the activation returns descriptors `[5, 0]` and `files`
wraps only the non-zero one. -/
theorem C5_witness :
    listenerFdsWithName envZ [65] =
      (Except.ok [5, 0],
       pinSeq ++ [callEvt, Event.callFree 0, Event.unpinAll]) ∧
    files envZ [65] =
      (Except.ok [OsFile.mk 5],
       pinSeq ++ [callEvt, Event.callFree 0, Event.unpinAll]) := by
  refine ⟨by decide, ?_⟩
  have h := (C5_files_wraps_each_nonzero_descriptor envZ [65] [5, 0]
    (pinSeq ++ [callEvt, Event.callFree 0, Event.unpinAll])
    (by decide)).1
  rw [h]
  decide

/-- Claim C6: on every platform where the mechanism is not compiled in
(non-darwin systems and the iOS variant), all public operations — `Files`,
`Listeners`, `PacketListeners` and the deprecated wrappers `TCPListeners`
and `UDPListeners` — return, for every input, the empty result together
with the single fixed unsupported-platform failure and an empty effect
trace (no foreign call): the same constant on every invocation. -/
theorem C6_unsupported_platform_fixed_failure (p : Platform)
    (h : p.supported = false) (env : LibcEnv) (senv : SockEnv)
    (name : GoString) :
    Files p env name =
      (Except.error LaunchdError.unsupportedPlatform, []) ∧
    Listeners p env senv name =
      (Except.error LaunchdError.unsupportedPlatform, []) ∧
    PacketListeners p env senv name =
      (Except.error LaunchdError.unsupportedPlatform, []) ∧
    TCPListeners p env senv name =
      (Except.error LaunchdError.unsupportedPlatform, []) ∧
    UDPListeners p env senv name =
      (Except.error LaunchdError.unsupportedPlatform, []) ∧
    LaunchdError.unsupportedPlatform.errno = ENOTSUP := by
  simp [Files, Listeners, PacketListeners, TCPListeners, UDPListeners,
        filesOthers, listenersOthers, packetListenersOthers, h,
        LaunchdError.errno]

/-- Witness for C6 on the iOS variant. -/
theorem C6_witness :
    Platform.ios.supported = false ∧
    Files Platform.ios envA [65] =
      (Except.error LaunchdError.unsupportedPlatform, []) ∧
    Listeners Platform.ios envA senvA [65] =
      (Except.error LaunchdError.unsupportedPlatform, []) := by
  have h := C6_unsupported_platform_fixed_failure Platform.ios rfl envA
    senvA [65]
  exact ⟨rfl, h.1, h.2.1⟩

/-- Claim C7: every execution of the activation request that reaches the
foreign call pins all three managed addresses handed to foreign code before
the trampoline call, and unpins exactly once, as the final event, on every
exit path; nothing is unpinned between the call and the final unpin except
(possibly) the deallocation call on the foreign address, which unpins
nothing. -/
theorem C7_pins_bracket_foreign_call (env : LibcEnv) (name : GoString)
    (h : callEvt ∈ (listenerFdsWithName env name).2) :
    ∃ mid, (listenerFdsWithName env name).2 =
        pinSeq ++ callEvt :: mid ++ [Event.unpinAll] ∧
      (∀ e ∈ mid, e = Event.callFree env.fdAddr) ∧
      (∀ t ∈ activateArgs, Event.pin t ∈ pinSeq) ∧
      (listenerFdsWithName env name).2.count Event.unpinAll = 1 := by
  have hn : 0 ∉ name := by
    intro hn
    rw [lfwn_null env name hn] at h
    simp at h
  rcases trace_shape env name hn with hs | hs
  · refine ⟨[], by simpa using hs, by simp, by decide, ?_⟩
    rw [hs]
    simp [pinSeq, callEvt, List.count_append, List.count_cons]
  · refine ⟨[Event.callFree env.fdAddr], by simpa using hs, by simp,
      by decide, ?_⟩
    rw [hs]
    simp [pinSeq, callEvt, List.count_append, List.count_cons]

/-- Witness for C7 on the concrete environment `envA`. -/
theorem C7_witness :
    callEvt ∈ (listenerFdsWithName envA [65]).2 ∧
    ∃ mid, (listenerFdsWithName envA [65]).2 =
        pinSeq ++ callEvt :: mid ++ [Event.unpinAll] ∧
      (∀ e ∈ mid, e = Event.callFree envA.fdAddr) ∧
      (∀ t ∈ activateArgs, Event.pin t ∈ pinSeq) ∧
      (listenerFdsWithName envA [65]).2.count Event.unpinAll = 1 :=
  ⟨by decide, C7_pins_bracket_foreign_call envA [65] (by decide)⟩

/-- Claim C8: no operation ever closes a descriptor: the traces of `files`,
`listeners` and `packetListeners` contain no close event on any path, so
every descriptor — returned, skipped, or excluded by type validation —
remains open. -/
theorem C8_no_descriptor_ever_closed (env : LibcEnv) (senv : SockEnv)
    (name : GoString) (fd : Int) :
    Event.closeFd fd ∉ (files env name).2 ∧
    Event.closeFd fd ∉ (listeners env senv name).2 ∧
    Event.closeFd fd ∉ (packetListeners env senv name).2 := by
  have hlfwn := lfwn_no_close env name fd
  have hfiles : Event.closeFd fd ∉ (files env name).2 := by
    rw [files_trace]
    exact hlfwn
  have hlstep : ∀ f, ∀ e ∈ (listenerStep senv name f).2,
      e ≠ Event.closeFd fd := by
    intro f e he
    rcases listenerStep_trace senv name f e he with h | h <;> simp [h]
  have hpstep : ∀ f, ∀ e ∈ (packetStep senv name f).2,
      e ≠ Event.closeFd fd := by
    intro f e he
    rcases packetStep_trace senv name f e he with h | h <;> simp [h]
  refine ⟨hfiles, ?_, ?_⟩
  · rcases h : files env name with ⟨r, tr⟩
    have htr : Event.closeFd fd ∉ tr := by
      rw [h] at hfiles
      exact hfiles
    cases r with
    | error e => simp [listeners, h, htr]
    | ok fs =>
        simp only [listeners, h, List.mem_append]
        rintro (hc | hc)
        · exact htr hc
        · exact adaptLoop_no_close (listenerStep senv name) fs fd hlstep hc
  · rcases h : files env name with ⟨r, tr⟩
    have htr : Event.closeFd fd ∉ tr := by
      rw [h] at hfiles
      exact hfiles
    cases r with
    | error e => simp [packetListeners, h, htr]
    | ok fs =>
        simp only [packetListeners, h, List.mem_append]
        rintro (hc | hc)
        · exact htr hc
        · exact adaptLoop_no_close (packetStep senv name) fs fd hpstep hc

/-- Claim C9: each file handle contributes exactly one outcome to the
adaptation loops — one listener appended or one failure joined — so listener
count plus failure count equals the input count, and the wrapped listeners
preserve the relative order of the handles (a filtered sublist of the
input). -/
theorem C9_each_handle_one_outcome_order_preserved (env : LibcEnv)
    (senv : SockEnv) (name : GoString) (fs : List OsFile) (tr : List Event)
    (h : files env name = (Except.ok fs, tr)) :
    (∃ es tr2, listeners env senv name =
        (Except.ok ((fs.filter (streamOk senv)).map NetListener.mk, es),
         tr ++ tr2) ∧
      (fs.filter (streamOk senv)).length + es.length = fs.length) ∧
    (∃ es tr2, packetListeners env senv name =
        (Except.ok ((fs.filter (dgramOk senv)).map NetPacketConn.mk, es),
         tr ++ tr2) ∧
      (fs.filter (dgramOk senv)).length + es.length = fs.length) ∧
    (fs.filter (streamOk senv)).Sublist fs ∧
    (fs.filter (dgramOk senv)).Sublist fs := by
  refine ⟨?_, ?_, List.filter_sublist fs, List.filter_sublist fs⟩
  · refine ⟨(adaptLoop (listenerStep senv name) fs).2.1,
      (adaptLoop (listenerStep senv name) fs).2.2, ?_, ?_⟩
    · simp [listeners, h, adaptLoop_listener_ok]
    · have hlen := adaptLoop_length (listenerStep senv name) fs
      rw [adaptLoop_listener_ok senv name fs, List.length_map] at hlen
      exact hlen
  · refine ⟨(adaptLoop (packetStep senv name) fs).2.1,
      (adaptLoop (packetStep senv name) fs).2.2, ?_, ?_⟩
    · simp [packetListeners, h, adaptLoop_packet_ok]
    · have hlen := adaptLoop_length (packetStep senv name) fs
      rw [adaptLoop_packet_ok senv name fs, List.length_map] at hlen
      exact hlen

/-- Witness for C9 on the concrete environments `envA`, `senvA`. -/
theorem C9_witness :
    files envA [65] =
      (Except.ok [OsFile.mk 5, OsFile.mk 7],
       pinSeq ++ [callEvt, Event.callFree 8, Event.unpinAll]) ∧
    ∃ es tr2, listeners envA senvA [65] =
      (Except.ok
        ((([OsFile.mk 5, OsFile.mk 7]).filter
            (streamOk senvA)).map NetListener.mk, es),
       (pinSeq ++ [callEvt, Event.callFree 8, Event.unpinAll]) ++ tr2) ∧
      (([OsFile.mk 5, OsFile.mk 7]).filter (streamOk senvA)).length +
        es.length = 2 :=
  ⟨by decide,
   (C9_each_handle_one_outcome_order_preserved envA senvA [65]
      [OsFile.mk 5, OsFile.mk 7]
      (pinSeq ++ [callEvt, Event.callFree 8, Event.unpinAll])
      (by decide)).1⟩

/-- A concrete environment producing the single descriptor `5`. -/
def envCex : LibcEnv where
  activateErrno := 0
  activateR1 := 0
  fdAddr := 0
  count := 1
  mem := fun _ => 5
  freeErrno := 0

/-- A concrete adaptation environment in which every descriptor queries as
a stream socket but `net.FileListener` fails on it. -/
def senvCex : SockEnv where
  getsockoptSoType := fun _ => Except.ok SOCK_STREAM
  fileListener := fun _ => false
  filePacketConn := fun _ => true

/-- Counterexample to C4 as stated: descriptor `5` queries as
`SOCK_STREAM`, yet `listeners` returns no listener for it (its
`net.FileListener` adaptation fails), so the wrapped set is not "exactly
those handles whose queried socket type is SOCK_STREAM". -/
theorem C4_counterexample :
    (files envCex [65]).1 = Except.ok [OsFile.mk 5] ∧
    senvCex.getsockoptSoType 5 = Except.ok SOCK_STREAM ∧
    (listeners envCex senvCex [65]).1 =
      Except.ok ([], [AdaptErr.fileListenerFailed 5]) ∧
    ([] : List NetListener) ≠ [NetListener.mk (OsFile.mk 5)] := by
  decide

/-- Claim C4 (amended): `Listeners` wraps as stream listeners exactly those
handles whose queried socket type is `SOCK_STREAM` *and* whose
`net.FileListener` adaptation succeeds; every other handle — type mismatch,
failed type query, or failed adaptation — is excluded and contributes
exactly one failure joined into the returned error, which is non-nil
exactly when some handle failed.  On descriptors that all query as
message-oriented (`SOCK_DGRAM`) and adapt cleanly, `Listeners` returns zero
listeners and one type-mismatch failure per handle, while `PacketListeners`
wraps every handle with no error. -/
theorem C4_listeners_wrap_adaptable_stream_handles (env : LibcEnv)
    (senv : SockEnv) (name : GoString) (fs : List OsFile) (tr : List Event)
    (h : files env name = (Except.ok fs, tr)) :
    (∃ es tr2, listeners env senv name =
        (Except.ok ((fs.filter (streamOk senv)).map NetListener.mk, es),
         tr ++ tr2) ∧
      (es = [] ↔ ∀ f ∈ fs, streamOk senv f = true) ∧
      (fs.filter (streamOk senv)).length + es.length = fs.length) ∧
    ((∀ f ∈ fs, senv.getsockoptSoType f.fd = Except.ok SOCK_DGRAM ∧
        senv.filePacketConn f.fd = true) →
      (∃ es tr2, listeners env senv name =
          (Except.ok ([], es), tr ++ tr2) ∧
        es.length = fs.length ∧
        ∀ e ∈ es, e = AdaptErr.wrongSocketType name) ∧
      ∃ tr2, packetListeners env senv name =
        (Except.ok (fs.map NetPacketConn.mk, []), tr ++ tr2)) := by
  constructor
  · refine ⟨(adaptLoop (listenerStep senv name) fs).2.1,
      (adaptLoop (listenerStep senv name) fs).2.2, ?_,
      adaptLoop_listener_errs_nil senv name fs, ?_⟩
    · simp [listeners, h, adaptLoop_listener_ok]
    · have hlen := adaptLoop_length (listenerStep senv name) fs
      rw [adaptLoop_listener_ok senv name fs, List.length_map] at hlen
      exact hlen
  · intro hd
    have hdq : ∀ f ∈ fs, senv.getsockoptSoType f.fd =
        Except.ok SOCK_DGRAM := fun f hf => (hd f hf).1
    have hnone : ∀ f ∈ fs, ¬ streamOk senv f = true := by
      intro f hf
      simp [streamOk, hdq f hf, SOCK_DGRAM, SOCK_STREAM]
    have hfilter : fs.filter (streamOk senv) = [] := by
      simp only [List.filter_eq_nil_iff]
      exact hnone
    have hall : ∀ f ∈ fs, dgramOk senv f = true := by
      intro f hf
      simp [dgramOk, hdq f hf, (hd f hf).2]
    have hfilter2 : fs.filter (dgramOk senv) = fs :=
      List.filter_eq_self.mpr hall
    constructor
    · refine ⟨(adaptLoop (listenerStep senv name) fs).2.1,
        (adaptLoop (listenerStep senv name) fs).2.2, ?_, ?_, ?_⟩
      · have hok := adaptLoop_listener_ok senv name fs
        rw [hfilter] at hok
        simp [listeners, h, hok]
      · rw [adaptLoop_listener_all_dgram senv name fs hdq]
        simp
      · rw [adaptLoop_listener_all_dgram senv name fs hdq]
        intro e he
        rcases List.mem_map.mp he with ⟨f, hf, rfl⟩
        rfl
    · refine ⟨(adaptLoop (packetStep senv name) fs).2.2, ?_⟩
      have hok := adaptLoop_packet_ok senv name fs
      rw [hfilter2] at hok
      have hlen := adaptLoop_length (packetStep senv name) fs
      rw [hok, List.length_map] at hlen
      have hes : (adaptLoop (packetStep senv name) fs).2.1 = [] :=
        List.length_eq_zero.mp (by omega)
      simp [packetListeners, h, hok, hes]

/-- Witness for the amended C4: in `envCex`/`senvCex` the lone stream-typed
handle fails adaptation, so the surviving set is empty and one failure is
joined. -/
theorem C4_witness :
    files envCex [65] =
      (Except.ok [OsFile.mk 5],
       pinSeq ++ [callEvt, Event.callFree 0, Event.unpinAll]) ∧
    ∃ es tr2, listeners envCex senvCex [65] =
        (Except.ok
          ((([OsFile.mk 5]).filter (streamOk senvCex)).map NetListener.mk,
           es),
         (pinSeq ++ [callEvt, Event.callFree 0, Event.unpinAll]) ++ tr2) ∧
      (es = [] ↔ ∀ f ∈ ([OsFile.mk 5] : List OsFile),
        streamOk senvCex f = true) ∧
      (([OsFile.mk 5]).filter (streamOk senvCex)).length + es.length = 1 :=
  ⟨by decide,
   (C4_listeners_wrap_adaptable_stream_handles envCex senvCex [65]
      [OsFile.mk 5]
      (pinSeq ++ [callEvt, Event.callFree 0, Event.unpinAll])
      (by decide)).1⟩

end GoLaunchd
